import Mathlib

/-! # HSA decision engine and RAG service: a shallow embedding

Definitions in this file transcribe backend/services/decision_engine.py and
backend/services/rag_service.py. Python floats are modelled as rationals,
Python dict values as association lists, absent values as Option. External
collaborators of the code (the system clock, the embedding model, the LLM,
the cosine-similarity kernel of sklearn, and the iteration order of a Python
set) are explicit parameters of the embedded functions. -/

namespace HSA

/-- Calendar date, the year-month-day triple of datetime.date. -/
structure Date where
  year : Nat
  month : Nat
  day : Nat
  deriving DecidableEq

/-- Date comparison, lexicographic as in datetime.date: a is on or before b. -/
def dateLe (a b : Date) : Prop :=
  a.year < b.year ∨ (a.year = b.year ∧
    (a.month < b.month ∨ (a.month = b.month ∧ a.day ≤ b.day)))

instance instDecDateLe (a b : Date) : Decidable (dateLe a b) := by
  unfold dateLe
  exact inferInstance

/-- Strict date comparison: a is strictly before b. -/
def dateLt (a b : Date) : Prop :=
  a.year < b.year ∨ (a.year = b.year ∧
    (a.month < b.month ∨ (a.month = b.month ∧ a.day < b.day)))

instance instDecDateLt (a b : Date) : Decidable (dateLt a b) := by
  unfold dateLt
  exact inferInstance

theorem dateLt_not_dateLe {a b : Date} (h : dateLt a b) : ¬ dateLe b a := by
  unfold dateLt at h
  unfold dateLe
  omega

/-- Zero-padded two-digit rendering, as str on a datetime.date field. -/
def pad2 (n : Nat) : String :=
  if n < 10 then "0" ++ toString n else toString n

/-- Zero-padded four-digit rendering of the year. -/
def pad4 (n : Nat) : String :=
  if n < 10 then "000" ++ toString n
  else if n < 100 then "00" ++ toString n
  else if n < 1000 then "0" ++ toString n
  else toString n

/-- The str form of a date, YYYY-MM-DD. -/
def dateStr (d : Date) : String :=
  pad4 d.year ++ "-" ++ pad2 d.month ++ "-" ++ pad2 d.day

/-- Gregorian leap-year rule used by datetime when validating a day. -/
def leapYear (y : Nat) : Bool :=
  y % 4 == 0 && (y % 100 != 0 || y % 400 == 0)

/-- Number of days of a month, as validated by the datetime constructor. -/
def daysInMonth (y m : Nat) : Nat :=
  if m = 2 then (if leapYear y then 29 else 28)
  else if m = 4 ∨ m = 6 ∨ m = 9 ∨ m = 11 then 30
  else 31

/-- Splitting a character list at every character satisfying the
predicate, keeping empty pieces, with the semantics of str.split with an
explicit separator. -/
def splitChars (p : Char → Bool) : List Char → List (List Char)
  | [] => [[]]
  | c :: cs =>
    if p c then [] :: splitChars p cs
    else
      match splitChars p cs with
      | [] => [[c]]
      | h :: t => (c :: h) :: t

/-- str.split on one separator character. -/
def pySplitOnChar (sep : Char) (s : String) : List String :=
  (splitChars (fun c => c == sep) s.data).map List.asString

/-- str.split on a character class, keeping empty pieces. -/
def pySplitPred (p : Char → Bool) (s : String) : List String :=
  (splitChars p s.data).map List.asString

/-- str.strip: drop whitespace from both ends. -/
def pyTrim (s : String) : String :=
  (((s.data.dropWhile Char.isWhitespace).reverse.dropWhile Char.isWhitespace).reverse).asString

/-- The numeric value of a digit string. -/
def digitsToNat (l : List Char) : Nat :=
  l.foldl (fun n c => n * 10 + (c.toNat - 48)) 0

/-- datetime.strptime with format YYYY-MM-DD: a four-digit year, a one- or
two-digit month in 1..12, a one- or two-digit day validated against the
month length (the strptime regular expression allows one or two digits for
the month and the day; the datetime constructor then range-checks them).
Returns none where strptime raises ValueError. -/
def parseDate (s : String) : Option Date :=
  match pySplitOnChar '-' s with
  | [ys, ms, ds] =>
    if ys.length = 4 ∧ ys.data.all Char.isDigit
        ∧ 0 < ms.length ∧ ms.length ≤ 2 ∧ ms.data.all Char.isDigit
        ∧ 0 < ds.length ∧ ds.length ≤ 2 ∧ ds.data.all Char.isDigit then
      if 1 ≤ digitsToNat ys.data ∧ 1 ≤ digitsToNat ms.data ∧ digitsToNat ms.data ≤ 12
          ∧ 1 ≤ digitsToNat ds.data
          ∧ digitsToNat ds.data ≤ daysInMonth (digitsToNat ys.data) (digitsToNat ms.data) then
        some ⟨digitsToNat ys.data, digitsToNat ms.data, digitsToNat ds.data⟩
      else none
    else none
  | _ => none

/-- DecisionType enumeration of schemas/decision.py. -/
inductive DecisionType where
  | approve
  | reject
  | manual_review
  deriving DecidableEq

/-- ValidationType enumeration of schemas/decision.py. -/
inductive ValidationType where
  | name_match
  | dob_match
  | address_match
  | id_expiry
  | document_quality
  | employer_match
  deriving DecidableEq

/-- ValidationResult schema: one compared field. Numeric formatting inside
some details strings of the source (for example a score rendered with two
decimals) is elided; the constant text of each message is kept. -/
structure ValidationResult where
  field_name : String
  validation_type : ValidationType
  is_valid : Bool
  confidence : ℚ
  details : String
  application_value : Option String := none
  document_value : Option String := none
  deriving DecidableEq

/-- DecisionConfig schema with its default field values. -/
structure DecisionConfig where
  name_match_threshold : ℚ := 7/10
  auto_approve_threshold : ℚ := 1/10
  manual_review_threshold : ℚ := 3/10
  expired_id_auto_reject : Bool := true
  deriving DecidableEq

/-- The default engine configuration, DecisionConfig(). -/
def defaultConfig : DecisionConfig := {}

/-- ApplicationData schema. The two extracted-document payloads are optional
string-to-string mappings, modelled as association lists. -/
structure ApplicationData where
  application_id : String
  full_name : String
  date_of_birth : String
  address_street : String
  address_city : String
  address_state : String
  address_zip : String
  social_security_number : String
  employer_name : String
  government_id_data : Option (List (String × String)) := none
  employer_document_data : Option (List (String × String)) := none

/-- DecisionResult schema. The reasoning string built by _generate_reasoning
is purely explanatory and is not modelled. -/
structure DecisionResult where
  application_id : String
  decision : DecisionType
  risk_score : ℚ
  validation_results : List ValidationResult

/-- Python dict truthiness: None and the empty mapping are both falsy. -/
def dictTruthy (o : Option (List (String × String))) : Option (List (String × String)) :=
  match o with
  | some (x :: xs) => some (x :: xs)
  | _ => none

/-- Lower-casing a string character by character, as str.lower. -/
def toLowerStr (s : String) : String :=
  (s.data.map Char.toLower).asString

/-- str.split with no separator: whitespace runs, empty pieces dropped. -/
def pyWords (s : String) : List String :=
  (pySplitPred Char.isWhitespace s).filter (fun w => w ≠ "")

/-- The Python set of the whitespace-separated words of a string. -/
def wordSet (s : String) : Finset String :=
  (pyWords s).toFinset

/-- The Python set of the characters of a string. -/
def charSet (s : String) : Finset Char :=
  s.data.toFinset

/-- Whether the first character list starts the second one. -/
def hasPre : List Char → List Char → Bool
  | [], _ => true
  | _ :: _, [] => false
  | c :: cs, d :: ds => c == d && hasPre cs ds

/-- Python substring containment, the expression a in b on strings. -/
def strIn (a b : String) : Bool :=
  (List.range (b.data.length + 1)).any (fun i => hasPre a.data (b.data.drop i))

/-- Name cleaning in _validate_name_match: lower-case, drop commas and
periods, strip surrounding whitespace. -/
def cleanName (s : String) : String :=
  pyTrim ((s.data.map Char.toLower).filter (fun c => c != ',' && c != '.')).asString

/-- str.replace with an empty replacement: remove every non-overlapping
occurrence of the pattern, scanning left to right. Used only with the
non-empty patterns of _validate_employer_match. -/
def removeAll (pat : List Char) : List Char → List Char
  | [] => []
  | c :: cs =>
    if hasPre pat (c :: cs) then removeAll pat (cs.drop (pat.length - 1))
    else c :: removeAll pat cs
termination_by l => l.length
decreasing_by
  · simp only [List.length_drop, List.length_cons]
    omega
  · simp only [List.length_cons]
    omega

/-- Employer cleaning in _validate_employer_match: lower-case, remove the
substrings inc. and corp. and llc, strip surrounding whitespace. -/
def cleanEmployer (s : String) : String :=
  pyTrim (removeAll "llc".data (removeAll "corp.".data (removeAll "inc.".data (toLowerStr s).data))).asString

/-- _check_id_expiry: validate the expiry date of a government id mapping
against the current date. A missing or empty value is reported as no expiry
found; an unparsable value as an invalid format (the source appends the
exception text to the prefix of the message; the offending value stands in
for that text here); a parsed date is valid exactly when it is on or after
today. -/
def checkIdExpiry (today : Date) (gov : List (String × String)) : ValidationResult :=
  if (gov.lookup "expiry_date").getD "" = "" then
    { field_name := "id_expiry", validation_type := .id_expiry, is_valid := false,
      confidence := 0, details := "No expiry date found on ID" }
  else
    match parseDate ((gov.lookup "expiry_date").getD "") with
    | some d =>
      { field_name := "id_expiry", validation_type := .id_expiry,
        is_valid := decide (dateLe today d), confidence := 1,
        details := "ID expires on " ++ dateStr d ++ ". Current date: " ++ dateStr today,
        document_value := some (dateStr d) }
    | none =>
      { field_name := "id_expiry", validation_type := .id_expiry, is_valid := false,
        confidence := 0,
        details := "Invalid expiry date format: " ++ (gov.lookup "expiry_date").getD "" }

/-- _validate_name_match: exact match of the cleaned names scores 1, a word
subset in either direction scores 85/100, otherwise the shared-character
count over the longer cleaned length, capped at 4/5. Validity compares the
confidence against the configured threshold. -/
def validateNameMatch (cfg : DecisionConfig) (appName : String) (docName : Option String) : ValidationResult :=
  if appName = "" ∨ docName.getD "" = "" then
    { field_name := "full_name", validation_type := .name_match, is_valid := false,
      confidence := 0, details := "Missing name data",
      application_value := some appName, document_value := docName }
  else if cleanName appName = cleanName (docName.getD "") then
    { field_name := "full_name", validation_type := .name_match, is_valid := true,
      confidence := 1, details := "Exact match",
      application_value := some appName, document_value := docName }
  else if wordSet (cleanName appName) ⊆ wordSet (cleanName (docName.getD ""))
      ∨ wordSet (cleanName (docName.getD "")) ⊆ wordSet (cleanName appName) then
    { field_name := "full_name", validation_type := .name_match,
      is_valid := decide (cfg.name_match_threshold ≤ 85/100), confidence := 85/100,
      details := "Subset match (middle name/initial variation)",
      application_value := some appName, document_value := docName }
  else
    { field_name := "full_name", validation_type := .name_match,
      is_valid := decide (cfg.name_match_threshold ≤
        min (((charSet (cleanName appName) ∩ charSet (cleanName (docName.getD ""))).card : ℚ)
          / ((max (cleanName appName).length (cleanName (docName.getD "")).length : Nat) : ℚ)) (4/5)),
      confidence :=
        min (((charSet (cleanName appName) ∩ charSet (cleanName (docName.getD ""))).card : ℚ)
          / ((max (cleanName appName).length (cleanName (docName.getD "")).length : Nat) : ℚ)) (4/5),
      details := "Character similarity",
      application_value := some appName, document_value := docName }

/-- _validate_dob_match: exact string equality of the stripped date values,
binary confidence. -/
def validateDobMatch (appDob : String) (docDob : Option String) : ValidationResult :=
  if appDob = "" ∨ docDob.getD "" = "" then
    { field_name := "date_of_birth", validation_type := .dob_match, is_valid := false,
      confidence := 0, details := "Missing date of birth data",
      application_value := some appDob, document_value := docDob }
  else
    { field_name := "date_of_birth", validation_type := .dob_match,
      is_valid := decide (pyTrim appDob = pyTrim (docDob.getD "")),
      confidence := if pyTrim appDob = pyTrim (docDob.getD "") then 1 else 0,
      details := if pyTrim appDob = pyTrim (docDob.getD "") then "Exact match" else "Date of birth mismatch",
      application_value := some (pyTrim appDob), document_value := some (pyTrim (docDob.getD "")) }

/-- _has_address_data: any of the four address fields carries a truthy value. -/
def hasAddressData (gov : List (String × String)) : Bool :=
  ["address_street", "address_city", "address_state", "address_zip"].any
    (fun f => (gov.lookup f).getD "" != "")

/-- _validate_address_match: street by substring containment in either
direction, city, state and zip by equality, everything lower-cased; the
confidence is the mean over the components present on both sides; valid
when strictly above one half. -/
def validateAddressMatch (app : ApplicationData) (gov : List (String × String)) : ValidationResult :=
  let docStreet := toLowerStr ((gov.lookup "address_street").getD "")
  let docCity := toLowerStr ((gov.lookup "address_city").getD "")
  let docState := toLowerStr ((gov.lookup "address_state").getD "")
  let docZip := toLowerStr ((gov.lookup "address_zip").getD "")
  let appStreet := toLowerStr app.address_street
  let appCity := toLowerStr app.address_city
  let appState := toLowerStr app.address_state
  let appZip := toLowerStr app.address_zip
  let ms : List ℚ :=
    (if docStreet ≠ "" ∧ appStreet ≠ "" then
      [if strIn docStreet appStreet ∨ strIn appStreet docStreet then (1:ℚ) else 0] else [])
    ++ (if docCity ≠ "" ∧ appCity ≠ "" then [if docCity = appCity then (1:ℚ) else 0] else [])
    ++ (if docState ≠ "" ∧ appState ≠ "" then [if docState = appState then (1:ℚ) else 0] else [])
    ++ (if docZip ≠ "" ∧ appZip ≠ "" then [if docZip = appZip then (1:ℚ) else 0] else [])
  if ms = [] then
    { field_name := "address", validation_type := .address_match, is_valid := false,
      confidence := 0, details := "No address components could be compared",
      application_value := some (pyTrim (appStreet ++ " " ++ appCity ++ " " ++ appState ++ " " ++ appZip)),
      document_value := some (pyTrim (docStreet ++ " " ++ docCity ++ " " ++ docState ++ " " ++ docZip)) }
  else
    { field_name := "address", validation_type := .address_match,
      is_valid := decide ((1:ℚ)/2 < ms.sum / (ms.length : ℚ)),
      confidence := ms.sum / (ms.length : ℚ),
      details := "Address component match score",
      application_value := some (pyTrim (appStreet ++ " " ++ appCity ++ " " ++ appState ++ " " ++ appZip)),
      document_value := some (pyTrim (docStreet ++ " " ++ docCity ++ " " ++ docState ++ " " ++ docZip)) }

/-- _validate_employer_match: exact match of the cleaned employer names
scores 1, substring containment in either direction 4/5, otherwise the
shared distinct-word count over the larger word-set size capped at 7/10 and
valid only strictly above one half. -/
def validateEmployerMatch (appEmp : String) (docEmp : Option String) : ValidationResult :=
  if appEmp = "" ∨ docEmp.getD "" = "" then
    { field_name := "employer_name", validation_type := .employer_match, is_valid := false,
      confidence := 0, details := "Missing employer data",
      application_value := some appEmp, document_value := docEmp }
  else if cleanEmployer appEmp = cleanEmployer (docEmp.getD "") then
    { field_name := "employer_name", validation_type := .employer_match, is_valid := true,
      confidence := 1, details := "Exact match",
      application_value := some appEmp, document_value := docEmp }
  else if strIn (cleanEmployer appEmp) (cleanEmployer (docEmp.getD ""))
      ∨ strIn (cleanEmployer (docEmp.getD "")) (cleanEmployer appEmp) then
    { field_name := "employer_name", validation_type := .employer_match, is_valid := true,
      confidence := 4/5, details := "Partial match (company name variation)",
      application_value := some appEmp, document_value := docEmp }
  else if wordSet (cleanEmployer appEmp) ∩ wordSet (cleanEmployer (docEmp.getD "")) ≠ ∅ then
    { field_name := "employer_name", validation_type := .employer_match,
      is_valid := decide ((1:ℚ)/2 <
        min (((wordSet (cleanEmployer appEmp) ∩ wordSet (cleanEmployer (docEmp.getD ""))).card : ℚ)
          / ((max (wordSet (cleanEmployer appEmp)).card (wordSet (cleanEmployer (docEmp.getD ""))).card : Nat) : ℚ)) (7/10)),
      confidence :=
        min (((wordSet (cleanEmployer appEmp) ∩ wordSet (cleanEmployer (docEmp.getD ""))).card : ℚ)
          / ((max (wordSet (cleanEmployer appEmp)).card (wordSet (cleanEmployer (docEmp.getD ""))).card : Nat) : ℚ)) (7/10),
      details := "Common words found",
      application_value := some appEmp, document_value := docEmp }
  else
    { field_name := "employer_name", validation_type := .employer_match, is_valid := false,
      confidence := 0, details := "No matching words found",
      application_value := some appEmp, document_value := docEmp }

/-- The weight table of _calculate_risk_score; an unknown kind defaults
to one half. -/
def riskWeight (k : String) : ℚ :=
  if k = "expired_id" then 1
  else if k = "name_mismatch" then 4/5
  else if k = "dob_mismatch" then 9/10
  else if k = "address_mismatch" then 3/10
  else if k = "employer_mismatch" then 2/5
  else 1/2

/-- _calculate_risk_score: the weighted average of the factor magnitudes,
capped at 1; the empty factor list and a zero total weight both give 0. -/
def calcRiskScore (factors : List (String × ℚ)) : ℚ :=
  if factors = [] then 0
  else
    if (factors.map (fun f => riskWeight f.1)).sum = 0 then 0
    else min ((factors.map (fun f => f.2 * riskWeight f.1)).sum
      / (factors.map (fun f => riskWeight f.1)).sum) 1

/-- _make_decision: the ordered business rules. An invalid id-expiry
validation with the auto-reject flag rejects; a risk score at or above the
manual-review threshold, or any failed validation, sends to manual review;
a risk score at or below the auto-approve threshold approves; anything
else falls back to manual review. -/
def makeDecision (cfg : DecisionConfig) (vs : List ValidationResult) (risk : ℚ) : DecisionType :=
  if (vs.any fun v => decide (v.validation_type = .id_expiry) && !v.is_valid)
      && cfg.expired_id_auto_reject then .reject
  else if cfg.manual_review_threshold ≤ risk then .manual_review
  else if vs.any (fun v => !v.is_valid) then .manual_review
  else if risk ≤ cfg.auto_approve_threshold then .approve
  else .manual_review

/-- The validations collected for the government id payload in
evaluate_application, in source order: expiry, name, date of birth, then
address when address data is present. A falsy payload contributes nothing. -/
def govIdValidations (today : Date) (cfg : DecisionConfig) (app : ApplicationData) : List ValidationResult :=
  match dictTruthy app.government_id_data with
  | none => []
  | some g =>
    checkIdExpiry today g
      :: validateNameMatch cfg app.full_name (g.lookup "full_name")
      :: validateDobMatch app.date_of_birth (g.lookup "date_of_birth")
      :: (if hasAddressData g then [validateAddressMatch app g] else [])

/-- The risk factors collected for the government id payload in
evaluate_application, in source order, each contributed only when the
corresponding validation failed (the expiry factor also requires the
auto-reject flag). -/
def govIdRiskFactors (today : Date) (cfg : DecisionConfig) (app : ApplicationData) : List (String × ℚ) :=
  match dictTruthy app.government_id_data with
  | none => []
  | some g =>
    (if !(checkIdExpiry today g).is_valid && cfg.expired_id_auto_reject then
      [("expired_id", (1:ℚ))] else [])
    ++ (if !(validateNameMatch cfg app.full_name (g.lookup "full_name")).is_valid then
      [("name_mismatch", 1 - (validateNameMatch cfg app.full_name (g.lookup "full_name")).confidence)] else [])
    ++ (if !(validateDobMatch app.date_of_birth (g.lookup "date_of_birth")).is_valid then
      [("dob_mismatch", (1:ℚ))] else [])
    ++ (if hasAddressData g then
      (if !(validateAddressMatch app g).is_valid then
        [("address_mismatch", 1 - (validateAddressMatch app g).confidence)] else [])
      else [])

/-- The employer validation of evaluate_application, present when the
employer document payload is truthy. -/
def employerValidations (app : ApplicationData) : List ValidationResult :=
  match dictTruthy app.employer_document_data with
  | none => []
  | some e => [validateEmployerMatch app.employer_name (e.lookup "employer_name")]

/-- The employer risk factor of evaluate_application. -/
def employerRiskFactors (app : ApplicationData) : List (String × ℚ) :=
  match dictTruthy app.employer_document_data with
  | none => []
  | some e =>
    if !(validateEmployerMatch app.employer_name (e.lookup "employer_name")).is_valid then
      [("employer_mismatch", 1 - (validateEmployerMatch app.employer_name (e.lookup "employer_name")).confidence)]
    else []

/-- All validations collected by one evaluate_application pass. -/
def validationsOf (today : Date) (cfg : DecisionConfig) (app : ApplicationData) : List ValidationResult :=
  govIdValidations today cfg app ++ employerValidations app

/-- All risk factors collected by one evaluate_application pass. -/
def riskFactorsOf (today : Date) (cfg : DecisionConfig) (app : ApplicationData) : List (String × ℚ) :=
  govIdRiskFactors today cfg app ++ employerRiskFactors app

/-- evaluate_application: collect the validations and risk factors, score
the risk, and decide. The current date is the clock parameter. -/
def evaluateApplication (today : Date) (cfg : DecisionConfig) (app : ApplicationData) : DecisionResult :=
  { application_id := app.application_id,
    decision := makeDecision cfg (validationsOf today cfg app)
      (calcRiskScore (riskFactorsOf today cfg app)),
    risk_score := calcRiskScore (riskFactorsOf today cfg app),
    validation_results := validationsOf today cfg app }

/-- Metadata stored with one chunk in the in-memory vector store. -/
structure ChunkMeta where
  text : String
  document : String
  chunk_index : Nat
  char_count : Nat
  deriving DecidableEq

/-- The in-memory VectorStore: an insertion-ordered mapping from chunk id
to embedding, and one from chunk id to metadata. -/
structure VectorStore where
  embeddings : List (String × List ℚ)
  metadata : List (String × ChunkMeta)

/-- get_metadata on the store. -/
def VectorStore.getMetadata (vs : VectorStore) (id : String) : Option ChunkMeta :=
  vs.metadata.lookup id

/-- Stable insertion of a scored entry into a list sorted by descending
score, keeping existing entries first on ties, as list.sort with a key and
reverse=True does. -/
def insertDesc (x : String × ℚ) : List (String × ℚ) → List (String × ℚ)
  | [] => [x]
  | y :: ys => if x.2 < y.2 then y :: insertDesc x ys else x :: y :: ys

/-- Stable sort by descending score. -/
def sortDesc (l : List (String × ℚ)) : List (String × ℚ) :=
  l.foldr insertDesc []

/-- VectorStore.similarity_search: score every stored embedding against the
query, keep the scores at or above the threshold, sort by descending score
and return the first k. The similarity kernel (cosine_similarity of
sklearn, an external library working on floating point) is a parameter. -/
def similaritySearch (sim : List ℚ → List ℚ → ℚ) (store : List (String × List ℚ))
    (query : List ℚ) (k : Nat) (threshold : ℚ) : List (String × ℚ) :=
  if store = [] then []
  else
    (sortDesc ((store.map (fun p => (p.1, sim query p.2))).filter
      (fun p => threshold ≤ p.2))).take k

/-- Citation schema of schemas/hsa_assistant.py. -/
structure Citation where
  document_name : String
  page_number : Option Nat := none
  excerpt : String
  relevance_score : ℚ
  deriving DecidableEq

/-- QARequest schema: the question and the optional follow-up context. -/
structure QARequest where
  question : String
  context : Option String := none

/-- QAResponse schema. The processing-time field measures the wall clock
and is not modelled. -/
structure QAResponse where
  answer : String
  confidence_score : ℚ
  citations : List Citation
  source_documents : List String

/-- _create_excerpt: split the chunk text on periods, ignore stripped
sentences shorter than 20 characters, pick the first sentence with the
strictly largest number of distinct question words, append a period when it
fits within the limit, truncate with an ellipsis otherwise, and fall back
to the leading text when no sentence scored. -/
def createExcerpt (text question : String) (maxLength : Nat := 200) : String :=
  let questionWords := wordSet (toLowerStr question)
  let pick := (pySplitOnChar '.' text).foldl
    (fun acc sentence =>
      let s := pyTrim sentence
      if s.length < 20 then acc
      else
        let wm := (questionWords ∩ wordSet (toLowerStr s)).card
        if acc.2 < wm then (s, wm) else acc)
    ("", 0)
  if pick.1 ≠ "" ∧ pick.1.length ≤ maxLength then pick.1 ++ "."
  else if pick.1 ≠ "" then (pick.1.data.take (maxLength - 3)).asString ++ "..."
  else if maxLength < text.length then (text.data.take (maxLength - 3)).asString ++ "..."
  else text

/-- _calculate_confidence: average similarity of the hits weighted 3/5,
hit count against a target of three weighted 1/5, answer length against a
target of 200 characters weighted 1/5, capped at 1; zero hits give 0. -/
def calcConfidence (searchResults : List (String × ℚ)) (response : String) : ℚ :=
  if searchResults = [] then 0
  else
    min (((searchResults.map (fun p => p.2)).sum / (searchResults.length : ℚ)) * (3/5)
      + min ((searchResults.length : ℚ) / 3) 1 * (1/5)
      + min ((response.length : ℚ) / 200) 1 * (1/5)) 1

/-- The fixed fallback answer returned when retrieval yields no hit. -/
def fallbackAnswer : String :=
  "I don't have information about that in my HSA knowledge base. Please rephrase your question or ask about HSA eligibility, contribution limits, qualified expenses, or account management."

/-- The retrieval step of answer_question: embed the question and search
the store with k = 5 and threshold 7/10. -/
def retrievedHits (sim : List ℚ → List ℚ → ℚ) (embed : String → List ℚ)
    (store : VectorStore) (req : QARequest) : List (String × ℚ) :=
  similaritySearch sim store.embeddings (embed req.question) 5 (7/10)

/-- The hits of answer_question that carry metadata, paired with it, in
retrieval order. -/
def retrievedWithMeta (sim : List ℚ → List ℚ → ℚ) (embed : String → List ℚ)
    (store : VectorStore) (req : QARequest) : List ((String × ℚ) × ChunkMeta) :=
  (retrievedHits sim embed store req).filterMap
    (fun p => (store.getMetadata p.1).map (fun m => (p, m)))

/-- The document names cited by answer_question, one per hit with metadata,
in retrieval order and with repetitions. -/
def citedDocNames (sim : List ℚ → List ℚ → ℚ) (embed : String → List ℚ)
    (store : VectorStore) (req : QARequest) : List String :=
  (retrievedWithMeta sim embed store req).map (fun q => q.2.document)

/-- answer_question: embed and retrieve; with no hit return the fixed
fallback with zero confidence and empty citations and sources; otherwise
build one citation per hit with metadata, generate the answer from the
retrieved chunks through the LLM, score the confidence, and list the
source documents by materialising the Python set of the cited names. The
LLM call and the set iteration order are external parameters; setEnum
models list applied to a built set, whose contract is only to enumerate
the distinct elements. -/
def answerQuestion (sim : List ℚ → List ℚ → ℚ) (embed : String → List ℚ)
    (generate : String → List ChunkMeta → Option String → String)
    (setEnum : List String → List String)
    (store : VectorStore) (req : QARequest) : QAResponse :=
  if retrievedHits sim embed store req = [] then
    { answer := fallbackAnswer, confidence_score := 0, citations := [], source_documents := [] }
  else
    { answer := generate req.question ((retrievedWithMeta sim embed store req).map (fun q => q.2)) req.context,
      confidence_score := calcConfidence (retrievedHits sim embed store req)
        (generate req.question ((retrievedWithMeta sim embed store req).map (fun q => q.2)) req.context),
      citations := (retrievedWithMeta sim embed store req).map
        (fun q => { document_name := q.2.document,
                    excerpt := createExcerpt q.2.text req.question,
                    relevance_score := q.1.2 }),
      source_documents := setEnum (citedDocNames sim embed store req) }

/-- Clamping to the unit interval, as the specification words the
confidence bound. -/
def clamp01 (x : ℚ) : ℚ :=
  max 0 (min x 1)

/-- A fixed evaluation date for concrete instances. -/
def today0 : Date := ⟨2026, 10, 12⟩

/-- A well-formed application with no extracted document payloads. -/
def baseApp : ApplicationData :=
  { application_id := "app-1", full_name := "John Doe", date_of_birth := "1990-01-15",
    address_street := "123 Main Street", address_city := "Anytown", address_state := "CA",
    address_zip := "12345", social_security_number := "123-45-6789",
    employer_name := "Test Corp" }

/-- An application with an expired id and a partially mismatched name: the
document name abd against the declared name abc shares two of three
characters, confidence 2/3, so the name factor has magnitude 1/3. -/
def appExpiredPartialName : ApplicationData :=
  { baseApp with
    full_name := "abc",
    government_id_data := some [("full_name", "abd"), ("date_of_birth", "1990-01-15"),
      ("expiry_date", "2020-01-01")] }

/-- An application with an expired id and every other compared field in
agreement, so the expiry factor is the only risk factor. -/
def appExpiredOnly : ApplicationData :=
  { baseApp with government_id_data := some [("full_name", "John Doe"),
      ("date_of_birth", "1990-01-15"), ("expiry_date", "2020-01-01")] }

/-- An application whose government id payload is present but empty: the
empty mapping is falsy in Python, so every government id check is skipped. -/
def appEmptyGovId : ApplicationData :=
  { baseApp with government_id_data := some [] }

/-- An application whose non-empty government id payload has no expiry
date field. -/
def appNoExpiryField : ApplicationData :=
  { baseApp with government_id_data := some [("full_name", "John Doe")] }

/-- A similarity kernel for concrete instances: the sum of the stored
embedding. -/
def sumSim : List ℚ → List ℚ → ℚ := fun _ e => e.sum

/-- A constant question embedding for concrete instances. -/
def embedOne : String → List ℚ := fun _ => [1]

/-- A fixed generated answer for concrete instances. -/
def genFixed : String → List ChunkMeta → Option String → String :=
  fun _ _ _ => "Based on the retrieved HSA documentation, the limits are as described."

/-- One admissible iteration order of a Python set over strings: the
distinct elements in first-appearance order. -/
def dedupEnum : List String → List String := fun l => l.dedup

/-- Another admissible iteration order of a Python set over strings: the
distinct elements in reversed first-appearance order. -/
def revDedupEnum : List String → List String := fun l => l.dedup.reverse

/-- An empty vector store. -/
def emptyStore : VectorStore := ⟨[], []⟩

/-- A store holding one chunk of each of two documents, both scoring
similarity 1 under sumSim and embedOne. -/
def twoDocStore : VectorStore :=
  ⟨[("c1", [1]), ("c2", [1])],
   [("c1", ⟨"HSA limits text for the first chunk.", "alpha.txt", 0, 36⟩),
    ("c2", ⟨"More HSA text for the second chunk.", "beta.txt", 0, 35⟩)]⟩

/-- A concrete question request. -/
def reqQ : QARequest := { question := "What are the HSA contribution limits?" }

/-- The government id payload of appExpiredPartialName. -/
def g1 : List (String × String) :=
  [("full_name", "abd"), ("date_of_birth", "1990-01-15"), ("expiry_date", "2020-01-01")]

theorem riskWeight_pos (k : String) : 0 < riskWeight k := by
  unfold riskWeight
  split_ifs <;> norm_num

theorem sum_riskWeights_pos (fs : List (String × ℚ)) (h : fs ≠ []) :
    0 < (fs.map (fun f => riskWeight f.1)).sum := by
  cases fs with
  | nil => exact absurd rfl h
  | cons a l =>
    simp only [List.map_cons, List.sum_cons]
    have h1 := riskWeight_pos a.1
    have h2 : 0 ≤ (l.map (fun f => riskWeight f.1)).sum := by
      apply List.sum_nonneg
      intro x hx
      obtain ⟨y, _, rfl⟩ := List.mem_map.mp hx
      exact le_of_lt (riskWeight_pos y.1)
    linarith

theorem calcRiskScore_formula (fs : List (String × ℚ)) (hne : fs ≠ []) :
    calcRiskScore fs
      = min ((fs.map (fun f => f.2 * riskWeight f.1)).sum
          / (fs.map (fun f => riskWeight f.1)).sum) 1 := by
  unfold calcRiskScore
  rw [if_neg hne, if_neg (ne_of_gt (sum_riskWeights_pos fs hne))]

/-- C3: the risk score is the weighted average of the factor magnitudes
capped at 1, with weights 1, 4/5, 9/10, 3/10, 2/5 for the five known
factor kinds and 1/2 for any other kind; the empty factor list scores
exactly 0; and no factor list ever scores above 1. -/
theorem claim_C3 :
    (riskWeight "expired_id" = 1 ∧ riskWeight "name_mismatch" = 4/5
      ∧ riskWeight "dob_mismatch" = 9/10 ∧ riskWeight "address_mismatch" = 3/10
      ∧ riskWeight "employer_mismatch" = 2/5
      ∧ ∀ k : String,
          k ∉ ["expired_id", "name_mismatch", "dob_mismatch", "address_mismatch", "employer_mismatch"] →
          riskWeight k = 1/2)
    ∧ (∀ fs : List (String × ℚ), fs ≠ [] → (∀ f ∈ fs, 0 ≤ f.2 ∧ f.2 ≤ 1) →
        calcRiskScore fs
          = min ((fs.map (fun f => f.2 * riskWeight f.1)).sum
              / (fs.map (fun f => riskWeight f.1)).sum) 1)
    ∧ calcRiskScore [] = 0
    ∧ (∀ fs : List (String × ℚ), calcRiskScore fs ≤ 1) := by
  refine ⟨⟨rfl, rfl, rfl, rfl, rfl, ?_⟩, fun fs hne _ => calcRiskScore_formula fs hne, rfl, ?_⟩
  · intro k hk
    simp only [List.mem_cons, List.not_mem_nil, or_false, not_or] at hk
    obtain ⟨h1, h2, h3, h4, h5⟩ := hk
    simp [riskWeight, h1, h2, h3, h4, h5]
  · intro fs
    unfold calcRiskScore
    split_ifs
    · norm_num
    · norm_num
    · exact min_le_right _ _

theorem claim_C3_witness :
    ([("expired_id", (1:ℚ))] ≠ ([] : List (String × ℚ)))
      ∧ calcRiskScore [("expired_id", (1:ℚ))]
        = min ((([("expired_id", (1:ℚ))].map (fun f => f.2 * riskWeight f.1)).sum
            / ([("expired_id", (1:ℚ))].map (fun f => riskWeight f.1)).sum) : ℚ) 1 :=
  ⟨List.cons_ne_nil _ _,
    claim_C3.2.1 [("expired_id", 1)] (List.cons_ne_nil _ _)
      (by
        intro f hf
        rw [List.mem_singleton] at hf
        subst hf
        exact ⟨by norm_num, by norm_num⟩)⟩

/-- C7: the expiry validation of a government id mapping is valid exactly
when the parsed expiry date is on or after today, with confidence 1; a
missing (or empty, hence falsy) expiry value and an unparsable one are both
invalid with confidence 0, and their details messages differ, the first
reporting no expiry found and the second an invalid format. -/
theorem claim_C7 (today : Date) (gov : List (String × String)) :
    ((gov.lookup "expiry_date").getD "" = "" →
      (checkIdExpiry today gov).is_valid = false
        ∧ (checkIdExpiry today gov).confidence = 0
        ∧ (checkIdExpiry today gov).details = "No expiry date found on ID")
    ∧ (∀ s : String, (gov.lookup "expiry_date").getD "" = s → s ≠ "" →
        parseDate s = none →
      (checkIdExpiry today gov).is_valid = false
        ∧ (checkIdExpiry today gov).confidence = 0
        ∧ (checkIdExpiry today gov).details = "Invalid expiry date format: " ++ s
        ∧ (checkIdExpiry today gov).details ≠ "No expiry date found on ID")
    ∧ (∀ (s : String) (d : Date), (gov.lookup "expiry_date").getD "" = s →
        parseDate s = some d →
      ((checkIdExpiry today gov).is_valid = true ↔ dateLe today d)
        ∧ (checkIdExpiry today gov).confidence = 1) := by
  refine ⟨?_, ?_, ?_⟩
  · intro h
    unfold checkIdExpiry
    rw [if_pos h]
    exact ⟨rfl, rfl, rfl⟩
  · intro s hs hne hparse
    unfold checkIdExpiry
    rw [hs, if_neg hne, hparse]
    refine ⟨rfl, rfl, rfl, ?_⟩
    intro heq
    have hlen := congrArg String.length heq
    rw [String.length_append] at hlen
    have h1 : ("Invalid expiry date format: ").length = 28 := rfl
    have h2 : ("No expiry date found on ID").length = 26 := rfl
    rw [h1, h2] at hlen
    omega
  · intro s d hs hparse
    have hne : s ≠ "" := by
      intro h
      rw [h] at hparse
      have hnil : parseDate "" = none := rfl
      rw [hnil] at hparse
      cases hparse
    unfold checkIdExpiry
    rw [hs, if_neg hne, hparse]
    exact ⟨decide_eq_true_iff, rfl⟩

theorem claim_C7_witness :
    (checkIdExpiry today0 [("expiry_date", "12/31/2024")]).is_valid = false
      ∧ (checkIdExpiry today0 [("expiry_date", "12/31/2024")]).confidence = 0
      ∧ (checkIdExpiry today0 [("expiry_date", "12/31/2024")]).details
          = "Invalid expiry date format: " ++ "12/31/2024"
      ∧ (checkIdExpiry today0 [("expiry_date", "12/31/2024")]).details
          ≠ "No expiry date found on ID" :=
  (claim_C7 today0 [("expiry_date", "12/31/2024")]).2.1 "12/31/2024" rfl (by decide) rfl

theorem checkIdExpiry_validation_type (today : Date) (gov : List (String × String)) :
    (checkIdExpiry today gov).validation_type = ValidationType.id_expiry := by
  unfold checkIdExpiry
  split_ifs
  · rfl
  · cases parseDate ((gov.lookup "expiry_date").getD "") <;> rfl

theorem decision_reject_of_invalid_expiry (today : Date) (cfg : DecisionConfig)
    (app : ApplicationData) (g : List (String × String))
    (hg : app.government_id_data = some g) (hne : g ≠ [])
    (hinv : (checkIdExpiry today g).is_valid = false)
    (hflag : cfg.expired_id_auto_reject = true) :
    (evaluateApplication today cfg app).decision = DecisionType.reject := by
  have hdt : dictTruthy app.government_id_data = some g := by
    rw [hg]
    cases g with
    | nil => exact absurd rfl hne
    | cons a l => rfl
  have hmem : checkIdExpiry today g ∈ validationsOf today cfg app := by
    unfold validationsOf govIdValidations
    rw [hdt]
    exact List.mem_append_left _ (List.mem_cons_self _ _)
  have hany : (validationsOf today cfg app).any
      (fun v => decide (v.validation_type = .id_expiry) && !v.is_valid) = true := by
    rw [List.any_eq_true]
    refine ⟨checkIdExpiry today g, hmem, ?_⟩
    simp only [hinv, checkIdExpiry_validation_type today g]
    rfl
  show makeDecision cfg (validationsOf today cfg app)
    (calcRiskScore (riskFactorsOf today cfg app)) = DecisionType.reject
  unfold makeDecision
  rw [hany, hflag]
  rfl
/-- C1, amended: with a government id payload whose expiry date parses to a
date strictly before today and the auto-reject flag set, the decision is
REJECT regardless of the other field matches; the risk score equals 1
whenever the expired-id factor is the only collected risk factor, but with
further partial-magnitude factors it is the weighted average, which can lie
below 1. -/
theorem claim_C1_amended (today : Date) (cfg : DecisionConfig) (app : ApplicationData)
    (g : List (String × String)) (s : String) (d : Date)
    (hg : app.government_id_data = some g)
    (hs : g.lookup "expiry_date" = some s) (hsne : s ≠ "")
    (hp : parseDate s = some d) (hlt : dateLt d today)
    (hflag : cfg.expired_id_auto_reject = true) :
    (evaluateApplication today cfg app).decision = DecisionType.reject
      ∧ (riskFactorsOf today cfg app = [("expired_id", 1)] →
          (evaluateApplication today cfg app).risk_score = 1) := by
  have hne : g ≠ [] := by
    intro h
    rw [h] at hs
    cases hs
  have hinv : (checkIdExpiry today g).is_valid = false := by
    unfold checkIdExpiry
    rw [hs]
    simp only [Option.getD_some]
    rw [if_neg hsne, hp]
    exact decide_eq_false (dateLt_not_dateLe hlt)
  refine ⟨decision_reject_of_invalid_expiry today cfg app g hg hne hinv hflag, ?_⟩
  intro hrf
  show calcRiskScore (riskFactorsOf today cfg app) = 1
  rw [hrf, calcRiskScore_formula _ (List.cons_ne_nil _ _)]
  simp only [List.map_cons, List.map_nil, List.sum_cons, List.sum_nil]
  rw [show riskWeight "expired_id" = 1 from rfl]
  norm_num

theorem claim_C1_witness :
    (evaluateApplication today0 defaultConfig appExpiredOnly).decision = DecisionType.reject
      ∧ (evaluateApplication today0 defaultConfig appExpiredOnly).risk_score = 1 := by
  have h := claim_C1_amended today0 defaultConfig appExpiredOnly
    [("full_name", "John Doe"), ("date_of_birth", "1990-01-15"), ("expiry_date", "2020-01-01")]
    "2020-01-01" ⟨2020, 1, 1⟩ rfl rfl (by decide) (by decide) (by decide) rfl
  exact ⟨h.1, h.2 (by decide)⟩

/-- C1, counterexample to the claim as stated: an expired id together with
a partially mismatched name (confidence 2/3, factor magnitude 1/3) yields
REJECT but a risk score of 19/27, not 1, although the expiry date parses
strictly before today and the auto-reject flag is set. -/
theorem claim_C1_counterexample :
    appExpiredPartialName.government_id_data = some g1
      ∧ g1.lookup "expiry_date" = some "2020-01-01"
      ∧ parseDate "2020-01-01" = some ⟨2020, 1, 1⟩
      ∧ dateLt ⟨2020, 1, 1⟩ today0
      ∧ defaultConfig.expired_id_auto_reject = true
      ∧ (evaluateApplication today0 defaultConfig appExpiredPartialName).decision = DecisionType.reject
      ∧ (evaluateApplication today0 defaultConfig appExpiredPartialName).risk_score = 19/27
      ∧ (evaluateApplication today0 defaultConfig appExpiredPartialName).risk_score ≠ 1 := by
  have hbranch : validateNameMatch defaultConfig "abc" (some "abd")
      = { field_name := "full_name", validation_type := .name_match,
          is_valid := decide (defaultConfig.name_match_threshold ≤
            min (((charSet (cleanName "abc") ∩ charSet (cleanName ((some "abd").getD ""))).card : ℚ)
              / ((max (cleanName "abc").length (cleanName ((some "abd").getD "")).length : Nat) : ℚ)) (4/5)),
          confidence :=
            min (((charSet (cleanName "abc") ∩ charSet (cleanName ((some "abd").getD ""))).card : ℚ)
              / ((max (cleanName "abc").length (cleanName ((some "abd").getD "")).length : Nat) : ℚ)) (4/5),
          details := "Character similarity",
          application_value := some "abc", document_value := some "abd" } := by
    unfold validateNameMatch
    rw [if_neg (by decide), if_neg (by decide), if_neg (by decide)]
  have hcast : (((charSet (cleanName "abc") ∩ charSet (cleanName ((some "abd").getD ""))).card : ℚ)
      / ((max (cleanName "abc").length (cleanName ((some "abd").getD "")).length : Nat) : ℚ)) = 2/3 := by
    rw [show (charSet (cleanName "abc") ∩ charSet (cleanName ((some "abd").getD ""))).card = 2 from by decide]
    rw [show (max (cleanName "abc").length (cleanName ((some "abd").getD "")).length : Nat) = 3 from by decide]
    norm_num
  have hconf : (validateNameMatch defaultConfig "abc" (some "abd")).confidence = 2/3 := by
    rw [hbranch]
    show min (((charSet (cleanName "abc") ∩ charSet (cleanName ((some "abd").getD ""))).card : ℚ)
      / ((max (cleanName "abc").length (cleanName ((some "abd").getD "")).length : Nat) : ℚ)) (4/5) = 2/3
    rw [hcast]
    norm_num [min_eq_left]
  have hvalid : (validateNameMatch defaultConfig "abc" (some "abd")).is_valid = false := by
    rw [hbranch]
    show decide (defaultConfig.name_match_threshold ≤
      min (((charSet (cleanName "abc") ∩ charSet (cleanName ((some "abd").getD ""))).card : ℚ)
        / ((max (cleanName "abc").length (cleanName ((some "abd").getD "")).length : Nat) : ℚ)) (4/5)) = false
    apply decide_eq_false
    rw [hcast]
    rw [min_eq_left (by norm_num : (2:ℚ)/3 ≤ 4/5)]
    norm_num [defaultConfig]
  have hrf : riskFactorsOf today0 defaultConfig appExpiredPartialName
      = [("expired_id", 1), ("name_mismatch", 1/3)] := by
    unfold riskFactorsOf govIdRiskFactors employerRiskFactors
    rw [show dictTruthy appExpiredPartialName.government_id_data = some g1 from rfl]
    rw [show dictTruthy appExpiredPartialName.employer_document_data = none from rfl]
    dsimp only
    rw [show (checkIdExpiry today0 g1).is_valid = false from by decide]
    rw [show validateNameMatch defaultConfig appExpiredPartialName.full_name (g1.lookup "full_name")
      = validateNameMatch defaultConfig "abc" (some "abd") from rfl]
    rw [hvalid, hconf]
    rw [show (validateDobMatch appExpiredPartialName.date_of_birth (g1.lookup "date_of_birth")).is_valid
      = true from by decide]
    rw [show hasAddressData g1 = false from by decide]
    norm_num [defaultConfig]
  have hrisk : (evaluateApplication today0 defaultConfig appExpiredPartialName).risk_score = 19/27 := by
    show calcRiskScore (riskFactorsOf today0 defaultConfig appExpiredPartialName) = 19/27
    rw [hrf, calcRiskScore_formula _ (List.cons_ne_nil _ _)]
    simp only [List.map_cons, List.map_nil, List.sum_cons, List.sum_nil]
    rw [show riskWeight "expired_id" = 1 from rfl, show riskWeight "name_mismatch" = 4/5 from rfl]
    rw [min_eq_left (by norm_num)]
    norm_num
  refine ⟨rfl, rfl, by decide, by decide, rfl, by decide, hrisk, ?_⟩
  rw [hrisk]
  norm_num

theorem noDocsOutcome (today : Date) (cfg : DecisionConfig) (app : ApplicationData)
    (h1 : dictTruthy app.government_id_data = none)
    (h2 : dictTruthy app.employer_document_data = none)
    (h3 : ¬ (cfg.manual_review_threshold ≤ 0))
    (h4 : (0:ℚ) ≤ cfg.auto_approve_threshold) :
    validationsOf today cfg app = [] ∧ riskFactorsOf today cfg app = []
      ∧ (evaluateApplication today cfg app).risk_score = 0
      ∧ (evaluateApplication today cfg app).decision = DecisionType.approve := by
  have hv : validationsOf today cfg app = [] := by
    unfold validationsOf govIdValidations employerValidations
    rw [h1, h2]
    rfl
  have hf : riskFactorsOf today cfg app = [] := by
    unfold riskFactorsOf govIdRiskFactors employerRiskFactors
    rw [h1, h2]
    rfl
  have hr : (evaluateApplication today cfg app).risk_score = 0 := by
    show calcRiskScore (riskFactorsOf today cfg app) = 0
    rw [hf]
    rfl
  refine ⟨hv, hf, hr, ?_⟩
  show makeDecision cfg (validationsOf today cfg app)
    (calcRiskScore (riskFactorsOf today cfg app)) = DecisionType.approve
  rw [hv, hf, show calcRiskScore [] = 0 from rfl]
  unfold makeDecision
  rw [if_neg (by simp), if_neg h3, if_neg (by simp), if_pos h4]

/-- C2: with no extracted document payload at all the engine collects zero
risk factors and scores 0, as the claim states, but under the default
configuration the decision is APPROVE, not the claimed MANUAL_REVIEW: the
zero score passes the auto-approve threshold and no validation failed. The
unit test test_no_government_id_data of the repository asserts
MANUAL_REVIEW with risk 0.0 on exactly this input, so the source code
contradicts its own test suite here. -/
theorem claim_C2 :
    baseApp.government_id_data = none
      ∧ baseApp.employer_document_data = none
      ∧ riskFactorsOf today0 defaultConfig baseApp = []
      ∧ validationsOf today0 defaultConfig baseApp = []
      ∧ (evaluateApplication today0 defaultConfig baseApp).risk_score = 0
      ∧ (evaluateApplication today0 defaultConfig baseApp).decision = DecisionType.approve
      ∧ DecisionType.approve ≠ DecisionType.manual_review := by
  have h := noDocsOutcome today0 defaultConfig baseApp rfl rfl
    (by norm_num [defaultConfig]) (by norm_num [defaultConfig])
  exact ⟨rfl, rfl, h.2.1, h.1, h.2.2.1, h.2.2.2, by decide⟩

/-- C10, amended: when the government id payload is present and non-empty
(the empty mapping is falsy in Python and skips every id check) and its
expiry date is missing, empty, or unparsable, the failed expiry validation
triggers the auto-reject rule and the decision is REJECT, not
MANUAL_REVIEW. -/
theorem claim_C10_amended (today : Date) (cfg : DecisionConfig) (app : ApplicationData)
    (g : List (String × String))
    (hg : app.government_id_data = some g) (hne : g ≠ [])
    (hbad : (g.lookup "expiry_date").getD "" = ""
      ∨ ((g.lookup "expiry_date").getD "" ≠ ""
          ∧ parseDate ((g.lookup "expiry_date").getD "") = none))
    (hflag : cfg.expired_id_auto_reject = true) :
    (evaluateApplication today cfg app).decision = DecisionType.reject := by
  apply decision_reject_of_invalid_expiry today cfg app g hg hne ?_ hflag
  rcases hbad with h | ⟨hb1, hb2⟩
  · unfold checkIdExpiry
    rw [if_pos h]
  · unfold checkIdExpiry
    rw [if_neg hb1, hb2]

theorem claim_C10_witness :
    (evaluateApplication today0 defaultConfig appNoExpiryField).decision = DecisionType.reject :=
  claim_C10_amended today0 defaultConfig appNoExpiryField [("full_name", "John Doe")]
    rfl (by decide) (Or.inl rfl) rfl

/-- C10, counterexample to the claim as stated: a present but empty
government id payload has no expiry date field, yet the Python truthiness
guard skips the expiry check entirely and the default configuration
APPROVES the application instead of rejecting it. -/
theorem claim_C10_counterexample :
    appEmptyGovId.government_id_data = some []
      ∧ ([] : List (String × String)).lookup "expiry_date" = none
      ∧ defaultConfig.expired_id_auto_reject = true
      ∧ (evaluateApplication today0 defaultConfig appEmptyGovId).decision = DecisionType.approve
      ∧ DecisionType.approve ≠ DecisionType.reject := by
  have h := noDocsOutcome today0 defaultConfig appEmptyGovId rfl rfl
    (by norm_num [defaultConfig]) (by norm_num [defaultConfig])
  exact ⟨rfl, rfl, rfl, h.2.2.2, by decide⟩
set_option maxHeartbeats 1000000 in
/-- C8: the name-match confidence is symmetric in the two compared names,
since cleaned-name equality, the two-sided word-subset test, and the
shared-character similarity over the longer length are each symmetric; in
particular the token-subset pair John A. Doe and John Doe scores 85/100 in
both orders. -/
theorem claim_C8 :
    (∀ (cfg : DecisionConfig) (a b : String), a ≠ "" → b ≠ "" →
      (validateNameMatch cfg a (some b)).confidence
        = (validateNameMatch cfg b (some a)).confidence)
    ∧ (validateNameMatch defaultConfig "John A. Doe" (some "John Doe")).confidence = 85/100
    ∧ (validateNameMatch defaultConfig "John Doe" (some "John A. Doe")).confidence = 85/100 := by
  refine ⟨?_, ?_, ?_⟩
  · intro cfg a b ha hb
    unfold validateNameMatch
    simp only [Option.getD_some]
    rw [if_neg (show ¬(a = "" ∨ b = "") from by simp [ha, hb]),
      if_neg (show ¬(b = "" ∨ a = "") from by simp [ha, hb])]
    by_cases h1 : cleanName a = cleanName b
    · rw [if_pos h1, if_pos h1.symm]
    · rw [if_neg h1,
        if_neg (show ¬(cleanName b = cleanName a) from fun h => h1 h.symm)]
      by_cases h2 : wordSet (cleanName a) ⊆ wordSet (cleanName b)
          ∨ wordSet (cleanName b) ⊆ wordSet (cleanName a)
      · rw [if_pos h2, if_pos h2.symm]
      · rw [if_neg h2,
          if_neg (show ¬(wordSet (cleanName b) ⊆ wordSet (cleanName a)
            ∨ wordSet (cleanName a) ⊆ wordSet (cleanName b)) from fun h => h2 h.symm)]
        show min (((charSet (cleanName a) ∩ charSet (cleanName b)).card : ℚ)
            / ((max (cleanName a).length (cleanName b).length : Nat) : ℚ)) (4/5)
          = min (((charSet (cleanName b) ∩ charSet (cleanName a)).card : ℚ)
            / ((max (cleanName b).length (cleanName a).length : Nat) : ℚ)) (4/5)
        rw [Finset.inter_comm (charSet (cleanName a)) (charSet (cleanName b))]
        rw [max_comm (cleanName a).length (cleanName b).length]
  · unfold validateNameMatch
    rw [if_neg (by decide), if_neg (by decide), if_pos (by decide)]
  · unfold validateNameMatch
    rw [if_neg (by decide), if_neg (by decide), if_pos (by decide)]

theorem claim_C8_witness :
    (validateNameMatch defaultConfig "Bob Smith" (some "Alice Jones")).confidence
      = (validateNameMatch defaultConfig "Alice Jones" (some "Bob Smith")).confidence :=
  claim_C8.1 defaultConfig "Bob Smith" "Alice Jones" (by decide) (by decide)

/-- C4: whenever the retrieval step of answer_question yields no hit at or
above the threshold, the response is the fixed fallback with confidence 0
and empty citations and source documents, and no error is raised (the
embedded function is total). -/
theorem claim_C4 (sim : List ℚ → List ℚ → ℚ) (embed : String → List ℚ)
    (generate : String → List ChunkMeta → Option String → String)
    (setEnum : List String → List String) (store : VectorStore) (req : QARequest)
    (h : retrievedHits sim embed store req = []) :
    answerQuestion sim embed generate setEnum store req
      = { answer := fallbackAnswer, confidence_score := 0,
          citations := [], source_documents := [] } := by
  unfold answerQuestion
  rw [if_pos h]

theorem claim_C4_witness :
    answerQuestion sumSim embedOne genFixed dedupEnum emptyStore reqQ
      = { answer := fallbackAnswer, confidence_score := 0,
          citations := [], source_documents := [] } :=
  claim_C4 sumSim embedOne genFixed dedupEnum emptyStore reqQ rfl
theorem mem_insertDesc (x y : String × ℚ) (l : List (String × ℚ)) :
    y ∈ insertDesc x l ↔ y = x ∨ y ∈ l := by
  induction l with
  | nil => simp [insertDesc]
  | cons a t ih =>
    simp only [insertDesc]
    split_ifs with h
    · rw [List.mem_cons, ih, List.mem_cons]
      tauto
    · rw [List.mem_cons, List.mem_cons]

theorem pairwise_insertDesc (x : String × ℚ) (l : List (String × ℚ))
    (hl : l.Pairwise (fun a b => b.2 ≤ a.2)) :
    (insertDesc x l).Pairwise (fun a b => b.2 ≤ a.2) := by
  induction l with
  | nil => simp [insertDesc]
  | cons a t ih =>
    rw [List.pairwise_cons] at hl
    obtain ⟨ha, ht⟩ := hl
    simp only [insertDesc]
    split_ifs with h
    · rw [List.pairwise_cons]
      refine ⟨?_, ih ht⟩
      intro y hy
      rw [mem_insertDesc] at hy
      rcases hy with rfl | hy
      · exact le_of_lt h
      · exact ha y hy
    · push_neg at h
      rw [List.pairwise_cons]
      refine ⟨?_, List.pairwise_cons.mpr ⟨ha, ht⟩⟩
      intro y hy
      rw [List.mem_cons] at hy
      rcases hy with rfl | hy
      · exact h
      · exact le_trans (ha y hy) h

theorem sortDesc_pairwise (l : List (String × ℚ)) :
    (sortDesc l).Pairwise (fun a b => b.2 ≤ a.2) := by
  unfold sortDesc
  induction l with
  | nil => simp
  | cons a t ih => exact pairwise_insertDesc a _ ih

theorem mem_sortDesc (l : List (String × ℚ)) (y : String × ℚ) :
    y ∈ sortDesc l ↔ y ∈ l := by
  unfold sortDesc
  induction l with
  | nil => simp
  | cons a t ih =>
    show y ∈ insertDesc a (t.foldr insertDesc []) ↔ _
    rw [mem_insertDesc, ih, List.mem_cons]

/-- C5: similarity_search returns only entries scoring at or above the
threshold, each the score of a stored embedding against the query; the
result is sorted by descending score, holds at most k entries, is empty on
an empty store, and is empty whenever the threshold exceeds every score
(in particular for any threshold above 1 when the kernel is a cosine
similarity, which never exceeds 1); the function is total, so no input
raises. -/
theorem claim_C5 (sim : List ℚ → List ℚ → ℚ) (store : List (String × List ℚ))
    (query : List ℚ) (k : Nat) (threshold : ℚ) :
    (∀ x ∈ similaritySearch sim store query k threshold,
        threshold ≤ x.2 ∧ ∃ e, (x.1, e) ∈ store ∧ x.2 = sim query e)
    ∧ (similaritySearch sim store query k threshold).Pairwise (fun a b => b.2 ≤ a.2)
    ∧ (similaritySearch sim store query k threshold).length ≤ k
    ∧ (store = [] → similaritySearch sim store query k threshold = [])
    ∧ ((∀ p ∈ store, sim query p.2 < threshold) →
        similaritySearch sim store query k threshold = []) := by
  refine ⟨?_, ?_, ?_, ?_, ?_⟩
  · intro x hx
    unfold similaritySearch at hx
    split_ifs at hx with h
    · cases hx
    · obtain ⟨hmem, hpred⟩ :=
        List.mem_filter.mp ((mem_sortDesc _ _).mp (List.mem_of_mem_take hx))
      rw [List.mem_map] at hmem
      obtain ⟨p, hp, rfl⟩ := hmem
      exact ⟨of_decide_eq_true hpred, p.2, by simpa using hp, rfl⟩
  · unfold similaritySearch
    split_ifs
    · simp
    · exact List.Pairwise.sublist (List.take_sublist _ _) (sortDesc_pairwise _)
  · unfold similaritySearch
    split_ifs
    · simp
    · exact List.length_take_le _ _
  · intro h
    unfold similaritySearch
    rw [if_pos h]
  · intro h
    unfold similaritySearch
    split_ifs with h0
    · rfl
    · have hfil : (store.map (fun p => (p.1, sim query p.2))).filter
          (fun p => decide (threshold ≤ p.2)) = [] := by
        rw [List.filter_eq_nil_iff]
        intro a ha
        rw [List.mem_map] at ha
        obtain ⟨p, hp, rfl⟩ := ha
        simp only [decide_eq_true_eq]
        exact not_le.mpr (h p hp)
      rw [hfil, show sortDesc ([] : List (String × ℚ)) = [] from rfl, List.take_nil]

theorem claim_C5_witness :
    similaritySearch sumSim [("a", [1])] [1] 1 2 = [] := by
  apply (claim_C5 sumSim [("a", [1])] [1] 1 2).2.2.2.2
  intro p hp
  rw [List.mem_singleton] at hp
  subst hp
  norm_num [sumSim]
/-- C6: for a non-empty hit list with non-negative similarity scores, the
confidence is exactly the claimed formula clamped to the unit interval:
average similarity weighted 3/5 plus the hit-count factor min(count/3, 1)
weighted 1/5 plus the answer-length factor min(length/200, 1) weighted 1/5;
the code only caps at 1, and the non-negative inputs make the lower clamp
vacuous, so the result always lies in the unit interval. -/
theorem claim_C6 (results : List (String × ℚ)) (response : String)
    (hne : results ≠ []) (hpos : ∀ x ∈ results, 0 ≤ x.2) :
    calcConfidence results response
      = clamp01 (((results.map (fun p => p.2)).sum / (results.length : ℚ)) * (3/5)
          + min ((results.length : ℚ) / 3) 1 * (1/5)
          + min ((response.length : ℚ) / 200) 1 * (1/5))
      ∧ 0 ≤ calcConfidence results response
      ∧ calcConfidence results response ≤ 1 := by
  have hlen : (0:ℚ) < (results.length : ℚ) := by
    exact_mod_cast List.length_pos.mpr hne
  have havg : 0 ≤ (results.map (fun p => p.2)).sum / (results.length : ℚ) := by
    apply div_nonneg
    · apply List.sum_nonneg
      intro x hx
      rw [List.mem_map] at hx
      obtain ⟨y, hy, rfl⟩ := hx
      exact hpos y hy
    · exact le_of_lt hlen
  have hF : 0 ≤ ((results.map (fun p => p.2)).sum / (results.length : ℚ)) * (3/5)
      + min ((results.length : ℚ) / 3) 1 * (1/5)
      + min ((response.length : ℚ) / 200) 1 * (1/5) := by
    have h2 : (0:ℚ) ≤ min ((results.length : ℚ) / 3) 1 :=
      le_min (by positivity) (by norm_num)
    have h3 : (0:ℚ) ≤ min ((response.length : ℚ) / 200) 1 :=
      le_min (by positivity) (by norm_num)
    have h1 : 0 ≤ ((results.map (fun p => p.2)).sum / (results.length : ℚ)) * (3/5) :=
      mul_nonneg havg (by norm_num)
    have h2b : (0:ℚ) ≤ min ((results.length : ℚ) / 3) 1 * (1/5) :=
      mul_nonneg h2 (by norm_num)
    have h3b : (0:ℚ) ≤ min ((response.length : ℚ) / 200) 1 * (1/5) :=
      mul_nonneg h3 (by norm_num)
    linarith
  have hcalc : calcConfidence results response
      = min (((results.map (fun p => p.2)).sum / (results.length : ℚ)) * (3/5)
          + min ((results.length : ℚ) / 3) 1 * (1/5)
          + min ((response.length : ℚ) / 200) 1 * (1/5)) 1 := by
    unfold calcConfidence
    rw [if_neg hne]
  refine ⟨?_, ?_, ?_⟩
  · rw [hcalc]
    unfold clamp01
    rw [max_eq_right (le_min hF (by norm_num))]
  · rw [hcalc]
    exact le_min hF (by norm_num)
  · rw [hcalc]
    exact min_le_right _ _

theorem claim_C6_witness :
    0 ≤ calcConfidence [("a", (4:ℚ)/5)] "hi"
      ∧ calcConfidence [("a", (4:ℚ)/5)] "hi" ≤ 1 := by
  have h := claim_C6 [("a", (4:ℚ)/5)] "hi" (List.cons_ne_nil _ _)
    (by
      intro x hx
      rw [List.mem_singleton] at hx
      subst hx
      norm_num)
  exact ⟨h.2.1, h.2.2⟩

theorem twoDocHits : retrievedHits sumSim embedOne twoDocStore reqQ = [("c1", 1), ("c2", 1)] := by
  have hd : (decide ((7:ℚ)/10 ≤ 1)) = true := decide_eq_true (by norm_num)
  have hlt : ¬((1:ℚ) < 1) := by norm_num
  unfold retrievedHits similaritySearch
  rw [if_neg (by decide)]
  rw [show twoDocStore.embeddings.map
      (fun p => (p.1, sumSim (embedOne reqQ.question) p.2)) = [("c1", (1:ℚ)), ("c2", 1)] from by
    norm_num [twoDocStore, sumSim, embedOne]]
  rw [show List.filter (fun p => decide ((7:ℚ)/10 ≤ p.2)) [("c1", (1:ℚ)), ("c2", 1)]
      = [("c1", (1:ℚ)), ("c2", 1)] from by simp [List.filter, hd]]
  rw [show sortDesc [("c1", (1:ℚ)), ("c2", 1)] = [("c1", (1:ℚ)), ("c2", 1)] from by
    simp [sortDesc, insertDesc, hlt]]
  rfl

/-- C9, amended: with retrieval hits present, source_documents is the
Python set of the cited document names materialised as a list: it contains
each cited document name exactly once and nothing else, for every
admissible iteration order of the set (any enumeration of the distinct
names); the first-appearance order asserted by the claim is not guaranteed,
since the iteration order of a Python set of strings is unspecified. -/
theorem claim_C9_amended (sim : List ℚ → List ℚ → ℚ) (embed : String → List ℚ)
    (generate : String → List ChunkMeta → Option String → String)
    (setEnum : List String → List String) (store : VectorStore) (req : QARequest)
    (hEnum : ∀ l : List String, (setEnum l).Perm l.dedup)
    (h : retrievedHits sim embed store req ≠ []) :
    (answerQuestion sim embed generate setEnum store req).source_documents.Nodup
    ∧ (∀ d : String, d ∈ (answerQuestion sim embed generate setEnum store req).source_documents
        ↔ d ∈ citedDocNames sim embed store req)
    ∧ (∀ d ∈ citedDocNames sim embed store req,
        (answerQuestion sim embed generate setEnum store req).source_documents.count d = 1) := by
  have hsd : (answerQuestion sim embed generate setEnum store req).source_documents
      = setEnum (citedDocNames sim embed store req) := by
    unfold answerQuestion
    rw [if_neg h]
  have hperm := hEnum (citedDocNames sim embed store req)
  have hnd : (setEnum (citedDocNames sim embed store req)).Nodup :=
    hperm.symm.nodup (List.nodup_dedup _)
  rw [hsd]
  refine ⟨hnd, ?_, ?_⟩
  · intro d
    rw [hperm.mem_iff, List.mem_dedup]
  · intro d hd
    exact List.count_eq_one_of_mem hnd (hperm.mem_iff.mpr (List.mem_dedup.mpr hd))

theorem claim_C9_witness :
    (answerQuestion sumSim embedOne genFixed dedupEnum twoDocStore reqQ).source_documents.Nodup := by
  have h := claim_C9_amended sumSim embedOne genFixed dedupEnum twoDocStore reqQ
    (fun l => List.Perm.refl _)
    (by
      rw [twoDocHits]
      exact List.cons_ne_nil _ _)
  exact h.1

/-- C9, counterexample to the claim as stated: the two retrieved chunks
cite alpha.txt then beta.txt in that first-appearance order, yet under the
reversed set enumeration, which is an admissible iteration order of a
Python set because it enumerates exactly the distinct cited names, the
returned source_documents list is the reverse of the first-appearance
order. -/
theorem claim_C9_counterexample :
    citedDocNames sumSim embedOne twoDocStore reqQ = ["alpha.txt", "beta.txt"]
      ∧ (revDedupEnum ["alpha.txt", "beta.txt"]).Perm (["alpha.txt", "beta.txt"].dedup)
      ∧ (answerQuestion sumSim embedOne genFixed revDedupEnum twoDocStore reqQ).source_documents
          = ["beta.txt", "alpha.txt"]
      ∧ (["beta.txt", "alpha.txt"] : List String) ≠ ["alpha.txt", "beta.txt"] := by
  have hcited : citedDocNames sumSim embedOne twoDocStore reqQ = ["alpha.txt", "beta.txt"] := by
    unfold citedDocNames retrievedWithMeta
    rw [twoDocHits]
    rfl
  have hsd : (answerQuestion sumSim embedOne genFixed revDedupEnum twoDocStore reqQ).source_documents
      = revDedupEnum (citedDocNames sumSim embedOne twoDocStore reqQ) := by
    unfold answerQuestion
    rw [if_neg (by
      rw [twoDocHits]
      exact List.cons_ne_nil _ _)]
  refine ⟨hcited, by decide, ?_, by decide⟩
  rw [hsd, hcited]
  rfl
